import Mathlib

/-!
Verification of the kube-workspace operator core against its specification.

The Rust source is shallowly embedded:
* wall-clock timestamps (`chrono::DateTime<Utc>`) are integers counting
  seconds, and `std::time::Duration` values are natural numbers of seconds;
  `chrono::Duration::to_std`, which fails on negative durations, becomes
  `durationToStd : Int → Option Nat`;
* fallible Rust code (`Result`, `?`, `.unwrap()` panics) is modelled with
  `Option` / `Except`: `none` / `.error` marks the error or panic branch;
* cluster I/O is modelled by passing the fetched values (or fetch results)
  as explicit arguments, and by recording the mutating calls a code path
  issues as a list of `KubeAction`s;
* serde (de)serialization of the idle annotation is abstracted: a pod
  carries the already-parsed optional payload of the
  `kube-workspaces.foundational.cc/pod-data` annotation key.
-/

set_option linter.unusedVariables false
set_option linter.unnecessarySeqFocus false

namespace KubeWorkspace

/-- Model of `chrono::Duration::to_std` applied to `now - earlier`:
conversion to an unsigned duration fails (panics under `.unwrap()`,
propagates under `?`) iff the signed duration is negative. -/
def durationToStd (d : Int) : Option Nat :=
  if d < 0 then none else some d.toNat

/-- Model of `u64 as i64` (two's-complement reinterpretation). -/
def i64_of_u64 (n : Nat) : Int :=
  if n < 2 ^ 63 then (n : Int) else (n : Int) - 2 ^ 64

/-- Model of `str::trim`: drop whitespace from both ends.  (Implemented
over the character list so that it reduces definitionally; Rust trims
Unicode `White_Space`, of which `Char.isWhitespace` covers the ASCII
part relevant here.) -/
def str_trim (s : String) : String :=
  (((s.data.dropWhile Char.isWhitespace).reverse.dropWhile
    Char.isWhitespace).reverse).asString

/-! ## Configuration (src/config.rs) -/

/-- Rust `config::CpuIdleAutoShutown` (struct name as in the source):
minimum idle time (seconds) and the milli-CPU threshold (`u64`). -/
structure CpuIdleAutoShutown where
  minimum_idle_time : Nat
  cpu_threshold : Nat
deriving Repr, DecidableEq

/-- Rust `config::TcpIdleAutoShutdown`: minimum idle time (seconds) and the
(parsed but unused) ignored ports list. -/
structure TcpIdleAutoShutdown where
  minimum_idle_time : Nat
  ignored_ports : List Nat
deriving Repr, DecidableEq

/-- Rust `config::AutoShutdown`. -/
structure AutoShutdown where
  enable : Bool
  cpu_usage : Option CpuIdleAutoShutown
  tcp_idle : Option TcpIdleAutoShutdown
deriving Repr, DecidableEq

/-- Rust `config::User`. -/
structure User where
  username : String
  ssh_public_key : String
deriving Repr, DecidableEq

/-- Rust `Config::verify_user`: linear search of the whitelist by username,
then trimmed byte comparison of the ssh keys. -/
def verify_user (users : List User) (username ssh_key : String) :
    Except String User :=
  match users.find? (fun u => u.username == username) with
  | none => .error "Username not found"
  | some user =>
    if str_trim user.ssh_public_key != str_trim ssh_key then
      .error "Invalid/unknown ssh public key"
    else
      .ok user

/-! ## Idle annotation and the shutdown decision (src/operator/mod.rs) -/

/-- Rust `PodMetricsAnnotion` (struct name as in the source), the JSON payload
stored under the pod-data annotation key. -/
structure PodMetricsAnnotion where
  last_idle_check : Option Int
  cpu_idle_since : Option Int
  network_idle_since : Option Int
deriving Repr, DecidableEq

/-- Rust `Default::default()` for `PodMetricsAnnotion`: all fields `None`. -/
def emptyAnnot : PodMetricsAnnotion :=
  { last_idle_check := none, cpu_idle_since := none, network_idle_since := none }

/-- The `cpu_usage` half of `PodMetricsAnnotion::should_shutdown`,
entered with the accumulator `should_shutdown = acc`.  Mirrors
`cpucfg.zip(cpu_idle)`: the branch is skipped entirely when either side
is absent.  `none` models the `.to_std().unwrap()` panic. -/
def shutdownCpuStep (a : PodMetricsAnnotion) (config : AutoShutdown)
    (now : Int) (acc : Bool) : Option Bool :=
  match config.cpu_usage, a.cpu_idle_since with
  | some cfg, some since =>
    match durationToStd (now - since) with
    | none => none
    | some d => if d > cfg.minimum_idle_time then some true else some false
  | _, _ => some acc

/-- Rust `PodMetricsAnnotion::should_shutdown`, parameterized by `now`
(the source reads `chrono::Utc::now()` internally).  The tcp dimension is
checked first; `netcfg.zip(net_idle)` skips the check when either the
config or the since-timestamp is absent; a non-exceeded evaluated
dimension returns `false` immediately.  `none` models the
`.to_std().unwrap()` panic on a future since-timestamp. -/
def PodMetricsAnnotion.should_shutdown (a : PodMetricsAnnotion)
    (config : AutoShutdown) (now : Int) : Option Bool :=
  match config.tcp_idle, a.network_idle_since with
  | some cfg, some since =>
    match durationToStd (now - since) with
    | none => none
    | some d =>
      if d > cfg.minimum_idle_time then shutdownCpuStep a config now true
      else some false
  | _, _ => shutdownCpuStep a config now false

/-- Decision rule as the claim (C1) words it: one configured dimension's
threshold status; a configured dimension whose since-timestamp is unset
yields `false` (a veto). -/
def claimDimOk (minimum : Option Nat) (since : Option Int) (now : Int) : Bool :=
  match minimum with
  | none => true
  | some m =>
    match since with
    | none => false
    | some s => decide (now - s > (m : Int))

/-- Rust `should_shutdown` as the claim (C1) words it: true iff at least one
dimension is configured and every configured dimension has its
since-timestamp set with `now - since` strictly above the minimum. -/
def claimShouldShutdown (a : PodMetricsAnnotion) (config : AutoShutdown)
    (now : Int) : Bool :=
  (config.tcp_idle.isSome || config.cpu_usage.isSome)
    && claimDimOk (config.tcp_idle.map (fun c => c.minimum_idle_time))
        a.network_idle_since now
    && claimDimOk (config.cpu_usage.map (fun c => c.minimum_idle_time))
        a.cpu_idle_since now

/-- One dimension of the decision rule as the code actually behaves:
`some b` when the dimension is evaluated (configured and since set, with
`b` the threshold verdict), `none` when it is skipped. -/
def dimEval (minimum : Option Nat) (since : Option Int) (now : Int) :
    Option Bool :=
  match minimum, since with
  | some m, some s => some (decide (now - s > (m : Int)))
  | _, _ => none

/-- The decision rule the code implements (on panic-free inputs): true iff
some evaluated dimension exceeded its minimum and no evaluated dimension
fell short; a configured dimension with an unset since-timestamp is
skipped rather than vetoing. -/
def codeShouldShutdown (a : PodMetricsAnnotion) (config : AutoShutdown)
    (now : Int) : Bool :=
  let net := dimEval (config.tcp_idle.map (fun c => c.minimum_idle_time))
      a.network_idle_since now
  let cpu := dimEval (config.cpu_usage.map (fun c => c.minimum_idle_time))
      a.cpu_idle_since now
  ((net == some true) || (cpu == some true))
    && !(net == some false) && !(cpu == some false)

/-! ## Quantity parser (src/client.rs, `parse_quantity`) -/

/-- Digit characters of a natural number, most significant first (the
decimal rendering used to build the claim's input strings). -/
def digitChar (d : Nat) : Char :=
  if d = 0 then '0'
  else if d = 1 then '1'
  else if d = 2 then '2'
  else if d = 3 then '3'
  else if d = 4 then '4'
  else if d = 5 then '5'
  else if d = 6 then '6'
  else if d = 7 then '7'
  else if d = 8 then '8'
  else '9'

/-- Decimal digit characters of `n`, most significant first. -/
def digitChars (n : Nat) : List Char :=
  if h : n < 10 then [digitChar n]
  else digitChars (n / 10) ++ [digitChar (n % 10)]
decreasing_by exact Nat.div_lt_self (by omega) (by omega)

/-- Numeric value of a decimal digit character. -/
def charDigitVal (c : Char) : Nat := c.toNat - 48

/-- Value of a list of decimal digit characters, most significant first. -/
def natFromDigits (ds : List Char) : Nat :=
  ds.foldl (fun acc c => 10 * acc + charDigitVal c) 0

/-- Digits-with-sign half of `i64::from_str`: rejects an empty digit
string and values outside the `i64` range
(`-(2^63) ≤ v ≤ 2^63 - 1`). -/
def parse_i64_digits (neg : Bool) (digs : List Char) : Option Int :=
  if digs.isEmpty then none
  else if neg then
    if -(natFromDigits digs : Int) < -(2 ^ 63) then none
    else some (-(natFromDigits digs : Int))
  else
    if (natFromDigits digs : Int) > 2 ^ 63 - 1 then none
    else some ((natFromDigits digs : Int))

/-- Model of `i64::from_str` on the number slice `q[0..number_end_index]`:
an optional sign followed by decimal digits. -/
def parse_i64 (cs : List Char) : Option Int :=
  match cs with
  | [] => none
  | c :: rest =>
    if c = '-' then parse_i64_digits true rest
    else if c = '+' then parse_i64_digits false rest
    else parse_i64_digits false (c :: rest)

/-- Suffix table of `parse_quantity` as an exact rational
`(numerator, denominator)`; the source stores each multiplier as an
`f64` (in particular `"Ki" => 1_024.0`, i.e. 2^10). -/
def suffix_multiplier (s : String) : Option (Nat × Nat) :=
  match s with
  | "m" => some (1, 1000)
  | "" => some (1, 1)
  | "k" => some (1000, 1)
  | "Ki" => some (1024, 1)
  | "M" => some (1000000, 1)
  | "Mi" => some (2 ^ 20, 1)
  | "G" => some (1000000000, 1)
  | "Gi" => some (2 ^ 30, 1)
  | "T" => some (1000000000000, 1)
  | "Ti" => some (2 ^ 40, 1)
  | "P" => some (1000000000000000, 1)
  | "Pi" => some (2 ^ 50, 1)
  | "E" => some (1000000000000000000, 1)
  | "Ei" => some (2 ^ 60, 1)
  | _ => none

/-- Ceiling division `⌈a / b⌉` for a positive denominator `b`. -/
def ceilDiv (a : Int) (b : Nat) : Int := -((-a).fdiv b)

/-- Model of Rust's saturating float→integer cast `as i64` applied to an
(idealized, exact) value: results outside the `i64` range are clamped to
`i64::MIN` / `i64::MAX`. -/
def i64_saturate (v : Int) : Int :=
  if v < -(2 ^ 63) then -(2 ^ 63)
  else if v > 2 ^ 63 - 1 then 2 ^ 63 - 1
  else v

/-- Rust `client::parse_quantity` over the character list of the input: a
leading digit or sign, then digits, then a suffix looked up in the
multiplier table.  The `f64` evaluation
`(number as f64 * mul).ceil() as i64` is modelled as exact rational
arithmetic with ceiling (exact whenever the intermediate values stay in
`f64`'s exact integer range, as in the theorems below), followed by the
saturating `as i64` cast (`i64_saturate`).
`parse_quantity_cons` handles a non-empty input `c :: rest`: the number
slice is `c` followed by the leading digits of `rest`, the suffix is the
remainder. -/
def parse_quantity_cons (c : Char) (rest : List Char) : Except String Int :=
  if c.isDigit || c = '+' || c = '-' then
    match parse_i64 (c :: rest.takeWhile (fun x => x.isDigit)) with
    | none => .error "invalid number"
    | some n =>
      match suffix_multiplier
          ((rest.drop (rest.takeWhile (fun x => x.isDigit)).length).asString)
          with
      | none => .error "Unknown suffix"
      | some mul => .ok (i64_saturate (ceilDiv (n * mul.1) mul.2))
  else .error "Invalid quantity"

/-- Rust `client::parse_quantity` over the character list of the input:
empty input is rejected, otherwise the cons case above runs. -/
def parse_quantity_chars (cs : List Char) : Except String Int :=
  match cs with
  | [] => .error "Empty quantity"
  | c :: rest => parse_quantity_cons c rest

/-- Rust `client::parse_quantity` on a string. -/
def parse_quantity (q : String) : Except String Int :=
  parse_quantity_chars q.data

/-- Rust `client::PodMetrics`, reduced to the per-container `usage.cpu`
quantity strings (the only part the operator reads). -/
structure PodMetrics where
  containers : List String
deriving Repr, DecidableEq

/-- Rust `client::pod_metrics_total_cpu`: sum of the parsed per-container CPU
quantities, propagating the first parse error. -/
def pod_metrics_total_cpu (m : PodMetrics) : Except String Int :=
  m.containers.foldlM (fun acc q => (parse_quantity q).map (fun x => x + acc)) 0

/-! ## Pod snapshots and the phase classifier
(src/operator/types.rs, src/client.rs) -/

/-- One entry of `status.containerStatuses` (only the `ready` flag is
read by the operator). -/
structure ContainerStatus where
  ready : Bool
deriving Repr, DecidableEq

/-- The parts of `PodStatus` the operator reads. -/
structure PodStatusK where
  phase : Option String
  container_statuses : Option (List ContainerStatus)
deriving Repr, DecidableEq

/-- The parts of `PodSpec` the operator reads back from the cluster. -/
structure PodSpecK where
  node_name : Option String
deriving Repr, DecidableEq

/-- The parts of `ObjectMeta` the operator reads.  `pod_data_annot` is
the parsed payload of the `kube-workspaces.foundational.cc/pod-data`
annotation key (`none` when the key is absent or its JSON fails to
parse; serde round-tripping is abstracted away). -/
structure ObjectMetaK where
  name : Option String
  deletion_timestamp : Option Int
  pod_data_annot : Option PodMetricsAnnotion
deriving Repr, DecidableEq

/-- A pod snapshot. -/
structure Pod where
  metadata : ObjectMetaK
  spec : Option PodSpecK
  status : Option PodStatusK
deriving Repr, DecidableEq

/-- Rust `client::pod_containers_ready`: all container statuses report
`ready`; an absent `containerStatuses` list yields `false`
(`unwrap_or_default`). -/
def pod_containers_ready (pod : Pod) : Bool :=
  ((pod.status.bind (fun s => s.container_statuses)).map
    (fun l => l.all (fun c => c.ready))).getD false

/-- Rust `WorkspacePhase` (src/operator/types.rs). -/
inductive WorkspacePhase where
  | notFound
  | starting
  | ready
  | terminating
  | unknown
deriving Repr, DecidableEq

/-- Rust `WorkspacePhase::from_pod`: the guard arm on `deletionTimestamp`
comes first in the source `match`, so it wins over every phase string;
the remaining arms match the phase string in source order. -/
def WorkspacePhase.from_pod (pod : Pod) : WorkspacePhase :=
  let phase := pod.status.bind (fun s => s.phase)
  if pod.metadata.deletion_timestamp.isSome then .terminating
  else
    match phase with
    | some "Pending" => .starting
    | some "Running" =>
      if pod_containers_ready pod then .ready else .starting
    | some "Succeeded" => .terminating
    | some "Failed" => .terminating
    | some "Unknown" => .unknown
    | some _ => .unknown
    | none => .unknown

/-- The phase cascade as claim C4 words it, written as an if-chain in the
claim's priority order (the containers-ready test is the cited
`pod_containers_ready`). -/
def classify_claim (pod : Pod) : WorkspacePhase :=
  let phase := pod.status.bind (fun s => s.phase)
  if pod.metadata.deletion_timestamp.isSome then .terminating
  else if phase = some "Pending" then .starting
  else if phase = some "Running" then
    (if pod_containers_ready pod then .ready else .starting)
  else if phase = some "Succeeded" ∨ phase = some "Failed" then .terminating
  else .unknown

/-! ## The per-pod auto-shutdown analysis (src/operator/mod.rs) -/

/-- Rust `PodMetricsAnnotion::from_pod` (annotation lookup plus serde parse,
abstracted to the pre-parsed field). -/
def PodMetricsAnnotion.from_pod (pod : Pod) : Option PodMetricsAnnotion :=
  pod.metadata.pod_data_annot

/-- Rust `Option::or(Some(now))` on a since-timestamp. -/
def orNow (o : Option Int) (now : Int) : Option Int :=
  match o with
  | some t => some t
  | none => some now

/-- Rust `Operator::pod_active_tcp_connections` applied to the captured
stdout of `ss --tcp --oneline --no-header`: trim, then count lines
(`str::lines().count()`): zero on an empty trimmed string, otherwise one
more than the number of remaining newline characters. -/
def pod_active_tcp_connections (stdout : String) : Nat :=
  let t := str_trim stdout
  if t.data.isEmpty then 0
  else 1 + t.data.countP (fun c => c == '\n')

/-- The `cpu_is_idle` computation of
`Operator::analyze_pod_autoshutdown`: `cfg.cpu_usage.as_ref().zip(...)`
falls back to `false` when either side is absent; a quantity parse
failure propagates (`none`).  Note the source's comparison is literally
`total_cpu > threshold` (see the spec's §9 open question). -/
def cpu_is_idle_res (cfg : AutoShutdown) (metrics_opt : Option PodMetrics) :
    Option Bool :=
  match cfg.cpu_usage, metrics_opt with
  | some cpu, some m =>
    match pod_metrics_total_cpu m with
    | .error _ => none
    | .ok total => some (decide (total > i64_of_u64 cpu.cpu_threshold))
  | _, _ => some false

/-- The idle-verdict computation and annotation construction of
`Operator::analyze_pod_autoshutdown`, acting on the (possibly
staleness-reset) old annotation `a`.  Arguments stand for the cluster
inputs: `metrics_opt` is the pod's metrics entry (if any) and
`ss_stdout` the captured exec output (`none` = exec failed; its error
propagates via `?`).  The result is `none` when the Rust returns an
error: a metrics parse failure or an exec failure. -/
def analyze_new_annot (a : PodMetricsAnnotion) (cfg : AutoShutdown)
    (metrics_opt : Option PodMetrics) (ss_stdout : Option String)
    (now : Int) : Option PodMetricsAnnotion :=
  match cpu_is_idle_res cfg metrics_opt with
  | none => none
  | some cpu_is_idle =>
    match ss_stdout with
    | none => none
    | some out =>
      some {
        last_idle_check := some now
        cpu_idle_since :=
          if cpu_is_idle then orNow a.cpu_idle_since now else none
        network_idle_since :=
          if pod_active_tcp_connections out == 0 then
            orNow a.network_idle_since now
          else none }

/-- The staleness gate at the top of `Operator::analyze_pod_autoshutdown`
followed by the construction of the new annotation
(`analyze_new_annot`). -/
def analyze_core (a0 : PodMetricsAnnotion) (cfg : AutoShutdown)
    (metrics_opt : Option PodMetrics) (ss_stdout : Option String)
    (now : Int) : Option PodMetricsAnnotion :=
  match a0.last_idle_check with
  | some last =>
    match durationToStd (now - last) with
    | none => none
    | some d =>
      if d > 60 * 5 then
        analyze_new_annot
          { a0 with cpu_idle_since := none, network_idle_since := none }
          cfg metrics_opt ss_stdout now
      else analyze_new_annot a0 cfg metrics_opt ss_stdout now
  | none => analyze_new_annot a0 cfg metrics_opt ss_stdout now

/-- Rust `Operator::analyze_pod_autoshutdown`: require a pod name, read the
annotation (`unwrap_or_default`), then run the core analysis. -/
def analyze_pod_autoshutdown (pod : Pod) (cfg : AutoShutdown)
    (metrics_opt : Option PodMetrics) (ss_stdout : Option String)
    (now : Int) : Option PodMetricsAnnotion :=
  match pod.metadata.name with
  | none => none
  | some _ =>
    analyze_core ((PodMetricsAnnotion.from_pod pod).getD emptyAnnot)
      cfg metrics_opt ss_stdout now

/-! ## Workspace naming, status assembly (src/operator/mod.rs) -/

/-- A service, reduced to its name (the reconciler treats fetched
services opaquely). -/
structure Service where
  name : String
deriving Repr, DecidableEq

/-- A node, reduced to its name. -/
structure Node where
  name : String
deriving Repr, DecidableEq

/-- Rust `Operator::user_pod_name` (also `user_service_name` and
`user_home_volume_name`): `workspace-{username}`. -/
def user_pod_name (user : User) : String := "workspace-" ++ user.username

/-- Rust `Operator::user_service_name`. -/
def user_service_name (user : User) : String := "workspace-" ++ user.username

/-- Rust `WorkspaceStatus` (src/operator/types.rs). -/
structure WorkspaceStatus where
  phase : WorkspacePhase
  service : Option Service
  pod : Option Pod
  node : Option Node
deriving Repr, DecidableEq

/-- The cluster reads `workspace_status` performs, passed as functions:
`get_opt` results for services and pods by name, and the (assumed
successful) node fetch by name. -/
structure KubeEnv where
  getService : String → Option Service
  getPod : String → Option Pod
  getNode : String → Node

/-- Rust `Operator::workspace_status`: `get_opt` the service and the pod; with
both present, fetch the pod's node when `spec.nodeName` is set and
classify the pod; otherwise report `NotFound` with the service as
fetched and no pod or node. -/
def workspace_status (env : KubeEnv) (user : User) : WorkspaceStatus :=
  let service := env.getService (user_service_name user)
  let pod := env.getPod (user_pod_name user)
  match service, pod with
  | some s, some p =>
    { phase := WorkspacePhase.from_pod p
      service := some s
      pod := some p
      node := (p.spec.bind (fun x => x.node_name)).map env.getNode }
  | _, _ =>
    { phase := .notFound, service := service, pod := none, node := none }

/-! ## Mutating cluster calls as traces
(src/operator/mod.rs, src/server/api.rs) -/

/-- A mutating cluster call relevant to the teardown claims. -/
inductive KubeAction where
  | deletePod (ns name : String)
  | deleteService (ns name : String)
  | deletePvc (ns name : String)
deriving Repr, DecidableEq

/-- Whether an action is a PVC delete. -/
def KubeAction.isPvcDelete : KubeAction → Bool
  | .deletePvc _ _ => true
  | _ => false

/-- Cluster state: the existing objects, keyed by (namespace, name). -/
structure Cluster where
  pvcs : List (String × String)
  services : List (String × String)
  pods : List (String × String)
deriving Repr, DecidableEq

/-- Effect of one delete call on the cluster state. -/
def applyAction (c : Cluster) (a : KubeAction) : Cluster :=
  match a with
  | .deletePod ns n => { c with pods := c.pods.filter (fun x => x != (ns, n)) }
  | .deleteService ns n =>
    { c with services := c.services.filter (fun x => x != (ns, n)) }
  | .deletePvc ns n => { c with pvcs := c.pvcs.filter (fun x => x != (ns, n)) }

/-- Effect of a trace of calls. -/
def applyActions (c : Cluster) (actions : List KubeAction) : Cluster :=
  actions.foldl applyAction c

/-- Rust `Operator::user_pod_shutdown`: delete the pod, then (only if that
succeeded — `?` propagates) delete the service.  The oracle booleans say
whether each cluster call succeeds; the returned trace lists the calls
issued, the flag whether the whole operation returned `Ok`. -/
def user_pod_shutdown (ns : String) (user : User)
    (podDeleteOk serviceDeleteOk : Bool) : List KubeAction × Bool :=
  let t1 := [KubeAction.deletePod ns (user_pod_name user)]
  if podDeleteOk then
    (t1 ++ [KubeAction.deleteService ns (user_service_name user)],
      serviceDeleteOk)
  else (t1, false)

/-- API output, variants as in `api::QueryOutput` (payloads of the start
and status variants are elided; the stop variant carries none). -/
inductive QueryOutput where
  | podStart
  | podStatus
  | podStop
deriving Repr, DecidableEq

/-- The `Query::PodStop` arm of `api::run_query`: authenticate, `get_opt`
the user's pod (its success is assumed, existence given by
`pod_exists`), shut the workspace down only when the pod exists, and
answer `PodStop {}`.  Returns the issued delete calls and the response. -/
def run_query_pod_stop (ns : String) (users : List User)
    (username ssh_key : String) (pod_exists : Bool)
    (podDeleteOk serviceDeleteOk : Bool) :
    List KubeAction × Except String QueryOutput :=
  match verify_user users username ssh_key with
  | .error e => ([], .error e)
  | .ok user =>
    if pod_exists then
      let r := user_pod_shutdown ns user podDeleteOk serviceDeleteOk
      (r.1, if r.2 then .ok .podStop else .error "shutdown failed")
    else ([], .ok .podStop)

/-! ## The operator check loop (src/operator/mod.rs) -/

/-- One step of a sweep tick. -/
inductive TickStep where
  | ensureNamespace
  | checkPods
  | ensureServiceMonitor
deriving Repr, DecidableEq

/-- Rust `Operator::run_checks`: re-ensure the namespace, check the pods, then
optionally ensure the ServiceMonitor; each step's failure propagates via
`?`, aborting the remainder of the tick.  The oracle booleans say
whether each step succeeds; the returned trace lists the steps that ran,
the flag whether the tick returned `Ok`. -/
def run_checks (nsOk podsOk : Bool) (promEnabled smOk : Bool) :
    List TickStep × Bool :=
  let t := [TickStep.ensureNamespace]
  if !nsOk then (t, false)
  else
    let t := t ++ [TickStep.checkPods]
    if !podsOk then (t, false)
    else if promEnabled then (t ++ [TickStep.ensureServiceMonitor], smOk)
    else (t, true)

/-- Rust `Operator::run_loop`: every tick runs `run_checks` and merely logs a
failed result; the loop never stops because of one.  `oracle i` gives
the step outcomes of tick `i`; the result lists each tick's trace. -/
def run_loop_ticks (oracle : Nat → Bool × Bool × Bool × Bool) (n : Nat) :
    List (List TickStep) :=
  (List.range n).map (fun i =>
    (run_checks (oracle i).1 (oracle i).2.1 (oracle i).2.2.1
      (oracle i).2.2.2).1)

/-! ## Concrete fixtures used by counterexamples and witnesses -/

/-- Auto-shutdown config with both dimensions configured at a 10-second
minimum idle time (cpu threshold 0). -/
def cfgBoth10 : AutoShutdown :=
  { enable := true
    cpu_usage := some { minimum_idle_time := 10, cpu_threshold := 0 }
    tcp_idle := some { minimum_idle_time := 10, ignored_ports := [] } }

/-- Auto-shutdown config with only the tcp dimension configured at a
10-second minimum idle time. -/
def cfgTcp10 : AutoShutdown :=
  { enable := true
    cpu_usage := none
    tcp_idle := some { minimum_idle_time := 10, ignored_ports := [] } }

/-- Annotation with only `cpu_idle_since` set (at time 0). -/
def annotCpuZero : PodMetricsAnnotion :=
  { last_idle_check := none, cpu_idle_since := some 0,
    network_idle_since := none }

/-- A pod carrying a parsed pod-data annotation whose
`network_idle_since` (1000) lies in the future of the sweep clock used
in the C9 theorem (110). -/
def podFutureSince : Pod :=
  { metadata :=
      { name := some "workspace-alice"
        deletion_timestamp := none
        pod_data_annot := some
          { last_idle_check := some 100
            cpu_idle_since := none
            network_idle_since := some 1000 } }
    spec := none
    status := none }

/-- The annotation the sweep of the C9 theorem writes. -/
def annotFutureNet : PodMetricsAnnotion :=
  { last_idle_check := some 110, cpu_idle_since := none,
    network_idle_since := some 1000 }

/-- A one-user whitelist. -/
def usersAlice : List User :=
  [{ username := "alice", ssh_public_key := "k1" }]

/-- Cluster view in which every service and pod lookup hits (the pod
being `podFutureSince`) and node fetches succeed. -/
def envAliceFull : KubeEnv :=
  { getService := fun _ => some { name := "svc" }
    getPod := fun _ => some podFutureSince
    getNode := fun n => { name := n } }

/-! ## Helper lemmas -/

theorem durationToStd_of_le {s now : Int} (h : s ≤ now) :
    durationToStd (now - s) = some (now - s).toNat := by
  unfold durationToStd
  rw [if_neg (by omega)]

theorem durationToStd_eq_some {d : Int} {n : Nat}
    (h : durationToStd d = some n) : 0 ≤ d ∧ n = d.toNat := by
  unfold durationToStd at h
  by_cases hd : d < 0
  · rw [if_pos hd] at h
    exact absurd h (by simp)
  · rw [if_neg hd] at h
    exact ⟨by omega, (Option.some.inj h).symm⟩

set_option maxHeartbeats 1000000 in
theorem digitChar_props (d : Nat) :
    (digitChar d).isDigit = true ∧ digitChar d ≠ '-' ∧ digitChar d ≠ '+' := by
  unfold digitChar
  split_ifs <;> decide

set_option maxHeartbeats 1000000 in
theorem digitChar_toNat {d : Nat} (h : d < 10) :
    (digitChar d).toNat = 48 + d := by
  unfold digitChar
  split_ifs with h0 h1 h2 h3 h4 h5 h6 h7 h8
  · subst h0; decide
  · subst h1; decide
  · subst h2; decide
  · subst h3; decide
  · subst h4; decide
  · subst h5; decide
  · subst h6; decide
  · subst h7; decide
  · subst h8; decide
  · have h9 : d = 9 := by omega
    subst h9; decide

theorem digitChars_ne_nil (n : Nat) : digitChars n ≠ [] := by
  rw [digitChars]
  split_ifs <;> simp

theorem digitChars_mem (n : Nat) :
    ∀ c ∈ digitChars n, c.isDigit = true ∧ c ≠ '-' ∧ c ≠ '+' := by
  induction n using Nat.strong_induction_on with
  | _ n ih =>
    intro c hc
    rw [digitChars] at hc
    split_ifs at hc with h
    · rw [List.mem_singleton] at hc
      exact hc ▸ digitChar_props n
    · rcases List.mem_append.mp hc with h1 | h2
      · exact ih (n / 10) (Nat.div_lt_self (by omega) (by omega)) c h1
      · rw [List.mem_singleton] at h2
        exact h2 ▸ digitChar_props (n % 10)

theorem natFromDigits_digitChars (n : Nat) :
    natFromDigits (digitChars n) = n := by
  induction n using Nat.strong_induction_on with
  | _ n ih =>
    rw [digitChars]
    split_ifs with h
    · unfold natFromDigits
      simp only [List.foldl_cons, List.foldl_nil, charDigitVal,
        digitChar_toNat h]
      omega
    · unfold natFromDigits
      rw [List.foldl_append]
      have ihn := ih (n / 10) (Nat.div_lt_self (by omega) (by omega))
      unfold natFromDigits at ihn
      rw [ihn]
      simp only [List.foldl_cons, List.foldl_nil, charDigitVal,
        digitChar_toNat (Nat.mod_lt n (by omega))]
      omega

theorem takeWhile_append_all (p : Char → Bool) (l1 l2 : List Char)
    (h : ∀ c ∈ l1, p c = true) :
    (l1 ++ l2).takeWhile p = l1 ++ l2.takeWhile p := by
  induction l1 with
  | nil => rfl
  | cons a l ihl =>
    rw [List.cons_append, List.takeWhile_cons,
      if_pos (h a (List.mem_cons_self a l)),
      ihl (fun c hc => h c (List.mem_cons_of_mem a hc)), List.cons_append]

theorem ceilDiv_one (x : Int) : ceilDiv x 1 = x := by
  unfold ceilDiv
  rw [show ((1 : Nat) : Int) = 1 from rfl, Int.fdiv_one]
  ring

theorem analyze_new_annot_of_erased (cfg : AutoShutdown)
    (metrics_opt : Option PodMetrics) (ss_stdout : Option String)
    (now : Int) (a : PodMetricsAnnotion)
    (hc : a.cpu_idle_since = none) (hn : a.network_idle_since = none) :
    ∀ r, analyze_new_annot a cfg metrics_opt ss_stdout now = some r →
      (r.cpu_idle_since = none ∨ r.cpu_idle_since = some now)
      ∧ (r.network_idle_since = none ∨ r.network_idle_since = some now) := by
  intro r hr
  unfold analyze_new_annot at hr
  rcases hcir : cpu_is_idle_res cfg metrics_opt with _ | cpu_is_idle <;>
    rw [hcir] at hr
  · exact absurd hr (by simp)
  · rcases ss_stdout with _ | out
    · exact absurd hr (by simp)
    · have hr2 : some (PodMetricsAnnotion.mk (some now)
          (if cpu_is_idle then orNow a.cpu_idle_since now else none)
          (if pod_active_tcp_connections out == 0 then
            orNow a.network_idle_since now else none)) = some r := hr
      rw [← Option.some.inj hr2, hc, hn]
      constructor
      · cases cpu_is_idle <;> simp [orNow]
      · by_cases hconn : pod_active_tcp_connections out == 0 <;>
          simp [orNow, hconn]

theorem shutdownCpuStep_congr {a b : PodMetricsAnnotion}
    (cfg : AutoShutdown) (now : Int) (acc : Bool)
    (h : a.cpu_idle_since = b.cpu_idle_since) :
    shutdownCpuStep a cfg now acc = shutdownCpuStep b cfg now acc := by
  unfold shutdownCpuStep
  rw [h]

theorem code_eval (net cpu : Option Bool) :
    ((net == some true || cpu == some true) && !(net == some false)
      && !(cpu == some false)) =
    (match net with
     | some false => false
     | some true => cpu.getD true
     | none => cpu.getD false) := by
  rcases net with _ | b <;> rcases cpu with _ | c <;>
    (try cases b) <;> (try cases c) <;> rfl

theorem dimEval_none_left (since : Option Int) (now : Int) :
    dimEval none since now = none := by
  cases since <;> rfl

theorem dimEval_none_right (m : Option Nat) (now : Int) :
    dimEval m none now = none := by
  cases m <;> rfl

theorem dimEval_some_some (m : Nat) (s now : Int) :
    dimEval (some m) (some s) now = some (decide (now - s > (m : Int))) := rfl

theorem shutdownCpuStep_eq (a : PodMetricsAnnotion) (cfg : AutoShutdown)
    (now : Int) (acc : Bool)
    (hcpu : ∀ s, a.cpu_idle_since = some s →
      cfg.cpu_usage.isSome = true → s ≤ now) :
    shutdownCpuStep a cfg now acc =
      some ((dimEval (cfg.cpu_usage.map (fun c => c.minimum_idle_time))
        a.cpu_idle_since now).getD acc) := by
  obtain ⟨en, cu, ti⟩ := cfg
  rcases cu with _ | cpu <;> rcases hs : a.cpu_idle_since with _ | s <;>
    simp only [shutdownCpuStep, dimEval, hs, Option.map_none',
      Option.map_some', Option.getD] <;> try rfl
  have hle : s ≤ now := hcpu s hs rfl
  rw [durationToStd_of_le hle]
  by_cases hgt : (now - s).toNat > cpu.minimum_idle_time
  · have h2 : now - s > (cpu.minimum_idle_time : Int) := by omega
    simp [hgt, h2]
  · have h2 : ¬ (now - s > (cpu.minimum_idle_time : Int)) := by omega
    simp [hgt, h2]

theorem should_shutdown_eq_code_aux (a : PodMetricsAnnotion)
    (cfg : AutoShutdown) (now : Int)
    (hnet : ∀ s, a.network_idle_since = some s →
      cfg.tcp_idle.isSome = true → s ≤ now)
    (hcpu : ∀ s, a.cpu_idle_since = some s →
      cfg.cpu_usage.isSome = true → s ≤ now) :
    a.should_shutdown cfg now = some (codeShouldShutdown a cfg now) := by
  have hstep := shutdownCpuStep_eq a cfg now
  unfold codeShouldShutdown
  rw [code_eval]
  obtain ⟨en, cu, ti⟩ := cfg
  rcases ti with _ | tcp <;> rcases hn : a.network_idle_since with _ | ns <;>
    simp only [PodMetricsAnnotion.should_shutdown, hn, Option.map_none',
      Option.map_some', dimEval_none_left, dimEval_none_right]
  · exact hstep false hcpu
  · exact hstep false hcpu
  · exact hstep false hcpu
  · have hle : ns ≤ now := hnet ns hn rfl
    simp only [durationToStd_of_le hle]
    by_cases hgt : (now - ns).toNat > tcp.minimum_idle_time
    · have h2 : now - ns > (tcp.minimum_idle_time : Int) := by omega
      have h3 : dimEval (some tcp.minimum_idle_time) (some ns) now
          = some true := by
        simp [dimEval, h2]
      rw [if_pos hgt]
      simp only [Option.map_some', h3]
      exact hstep true hcpu
    · have h2 : ¬ (now - ns > (tcp.minimum_idle_time : Int)) := by omega
      have h3 : dimEval (some tcp.minimum_idle_time) (some ns) now
          = some false := by
        simp [dimEval, h2]
      rw [if_neg hgt]
      simp only [Option.map_some', h3]

theorem shutdownCpuStep_some_true_valid {a : PodMetricsAnnotion}
    {cfg : AutoShutdown} {now : Int} {acc : Bool}
    (h : shutdownCpuStep a cfg now acc = some true) :
    ∀ s, a.cpu_idle_since = some s → cfg.cpu_usage.isSome = true →
      s ≤ now := by
  intro s hs hc
  obtain ⟨en, cu, ti⟩ := cfg
  rcases cu with _ | cpu
  · simp at hc
  · simp only [shutdownCpuStep, hs] at h
    rcases hd : durationToStd (now - s) with _ | d
    · rw [hd] at h
      exact absurd h (by simp)
    · have := durationToStd_eq_some hd
      omega

theorem should_shutdown_some_true_valid (a : PodMetricsAnnotion)
    (cfg : AutoShutdown) (now : Int)
    (h : a.should_shutdown cfg now = some true) :
    (∀ s, a.network_idle_since = some s →
      cfg.tcp_idle.isSome = true → s ≤ now)
    ∧ (∀ s, a.cpu_idle_since = some s →
      cfg.cpu_usage.isSome = true → s ≤ now) := by
  constructor
  · intro s hs ht
    obtain ⟨en, cu, ti⟩ := cfg
    rcases ti with _ | tcp
    · simp at ht
    · simp only [PodMetricsAnnotion.should_shutdown, hs] at h
      rcases hd : durationToStd (now - s) with _ | d
      · rw [hd] at h
        exact absurd h (by simp)
      · have := durationToStd_eq_some hd
        omega
  · obtain ⟨en, cu, ti⟩ := cfg
    rcases ti with _ | tcp <;> rcases hn : a.network_idle_since with _ | ns <;>
      simp only [PodMetricsAnnotion.should_shutdown, hn] at h
    · exact shutdownCpuStep_some_true_valid h
    · exact shutdownCpuStep_some_true_valid h
    · exact shutdownCpuStep_some_true_valid h
    · rcases hd : durationToStd (now - ns) with _ | d
      · rw [hd] at h
        exact absurd h (by simp)
      · simp only [hd] at h
        by_cases hgt : d > tcp.minimum_idle_time
        · rw [if_pos hgt] at h
          exact shutdownCpuStep_some_true_valid h
        · rw [if_neg hgt] at h
          exact absurd h (by simp)

theorem shutdownCpuStep_mono {a : PodMetricsAnnotion} {cfg : AutoShutdown}
    {now s s' : Int} {acc : Bool}
    (hs : a.cpu_idle_since = some s) (hle : s' ≤ s)
    (h : shutdownCpuStep a cfg now acc = some true) :
    shutdownCpuStep { a with cpu_idle_since := some s' } cfg now acc
      = some true := by
  obtain ⟨en, cu, ti⟩ := cfg
  rcases cu with _ | cpu
  · exact h
  · simp only [shutdownCpuStep, hs] at h ⊢
    rcases hd : durationToStd (now - s) with _ | d
    · rw [hd] at h
      exact absurd h (by simp)
    · simp only [hd] at h
      by_cases hgt : d > cpu.minimum_idle_time
      · have hv := durationToStd_eq_some hd
        have hs'n : s' ≤ now := by omega
        simp only [durationToStd_of_le hs'n]
        have hgt' : (now - s').toNat > cpu.minimum_idle_time := by omega
        rw [if_pos hgt']
      · rw [if_neg hgt] at h
        exact absurd h (by simp)

/-! ## Claim theorems -/

/-- C1 (counterexample): with both dimensions configured, a set and
long-exceeded `cpu_idle_since`, and an *unset* `network_idle_since`,
`should_shutdown` returns `true`, while the claim's rule — a configured
dimension with an unset since-timestamp forces `false` — says `false`. -/
theorem should_shutdown_unset_dim_cex :
    PodMetricsAnnotion.should_shutdown annotCpuZero cfgBoth10 100 = some true
    ∧ claimShouldShutdown annotCpuZero cfgBoth10 100 = false := by
  exact ⟨rfl, rfl⟩

/-- C3: `user_pod_shutdown` issues, on the success path, exactly the pod
delete followed by the service delete (both named
`workspace-{username}`); on every path it issues no PVC delete, and the
cluster's PVCs are untouched by the calls it issues. -/
theorem user_pod_shutdown_deletes_pod_then_service_preserves_pvc
    (ns : String) (user : User) (podDeleteOk serviceDeleteOk : Bool)
    (st : Cluster) :
    (user_pod_shutdown ns user true true).1 =
      [KubeAction.deletePod ns ("workspace-" ++ user.username),
       KubeAction.deleteService ns ("workspace-" ++ user.username)]
    ∧ ((user_pod_shutdown ns user podDeleteOk serviceDeleteOk).1.all
        (fun a => !a.isPvcDelete)) = true
    ∧ (applyActions st
        (user_pod_shutdown ns user podDeleteOk serviceDeleteOk).1).pvcs
      = st.pvcs := by
  refine ⟨rfl, ?_, ?_⟩ <;>
    cases podDeleteOk <;> cases serviceDeleteOk <;>
      simp [user_pod_shutdown, applyActions, applyAction,
        KubeAction.isPvcDelete, user_pod_name, user_service_name]

/-- C4: the phase classifier follows the claimed priority cascade: a set
`deletionTimestamp` wins with `Terminating`; else `"Pending"` gives
`Starting`; else `"Running"` gives `Ready` when all container statuses
are ready (in the sense of the cited `pod_containers_ready`) and
`Starting` otherwise; else `"Succeeded"`/`"Failed"` give `Terminating`;
everything else — `"Unknown"`, any other string, or a missing phase —
gives `Unknown`. -/
theorem from_pod_matches_cascade (pod : Pod) :
    WorkspacePhase.from_pod pod = classify_claim pod := by
  unfold WorkspacePhase.from_pod classify_claim
  by_cases hdel : pod.metadata.deletion_timestamp.isSome
  · simp [hdel]
  · simp only [hdel, if_false, Bool.false_eq_true, ite_false]
    rcases hph : pod.status.bind (fun s => s.phase) with _ | s
    · simp
    · by_cases h1 : s = "Pending"
      · subst h1; simp
      · by_cases h2 : s = "Running"
        · subst h2
          by_cases hr : pod_containers_ready pod <;> simp [hr]
        · by_cases h3 : s = "Succeeded"
          · subst h3; simp
          · by_cases h4 : s = "Failed"
            · subst h4; simp
            · by_cases h5 : s = "Unknown"
              · subst h5; simp
              · simp [h1, h2, h3, h4, h5]

/-- C5 (counterexample): the source maps the suffix `Ki` to 1024 = 2^10
(the Kubernetes binary-kilo multiplier), not the 2^20 the spec's table
assigns it: parsing `"1Ki"` yields 1024, and 1024 ≠ 2^20. -/
theorem parse_quantity_Ki_cex :
    parse_quantity "1Ki" = .ok 1024 ∧ (1024 : Int) ≠ 2 ^ 20 := by
  exact ⟨rfl, by decide⟩

/-- C5 (amended): for every `n ≤ 2^53 - 1` (inside the `i64` range, small
enough that the source's `f64` arithmetic — modelled as exact here — is
exact, and with `n × 1024 < 2^63` so the saturating `as i64` cast does
not clamp), parsing the quantity string written as the decimal digits of
`n` followed by `"Ki"` yields `n × 2^10 = n × 1024`, the binary-kilo
multiplier, not the `2^20` of the spec's table. -/
theorem parse_quantity_Ki_amended (n : Nat) (h : n ≤ 2 ^ 53 - 1) :
    parse_quantity ((digitChars n ++ "Ki".data).asString)
      = .ok ((n : Int) * 1024) := by
  rcases hl : digitChars n with _ | ⟨c, ds⟩
  · exact absurd hl (digitChars_ne_nil n)
  · have hcp := digitChars_mem n c (hl ▸ List.mem_cons_self c ds)
    have hds : ∀ x ∈ ds, x.isDigit = true :=
      fun x hx => (digitChars_mem n x (hl ▸ List.mem_cons_of_mem c hx)).1
    have e1 : parse_quantity ((c :: ds ++ "Ki".data).asString)
        = parse_quantity_cons c (ds ++ ['K', 'i']) := rfl
    rw [e1]
    unfold parse_quantity_cons
    rw [if_pos (by simp [hcp.1])]
    have htw : (ds ++ ['K', 'i']).takeWhile (fun x => x.isDigit) = ds := by
      rw [takeWhile_append_all _ ds ['K', 'i'] hds]
      simp [List.takeWhile_cons]
    have hnfd : natFromDigits (c :: ds) = n := by
      rw [← hl]
      exact natFromDigits_digitChars n
    have hnum : parse_i64 (c :: ds) = some ((n : Int)) := by
      show (if c = '-' then parse_i64_digits true ds
        else if c = '+' then parse_i64_digits false ds
        else parse_i64_digits false (c :: ds)) = some ((n : Int))
      rw [if_neg hcp.2.1, if_neg hcp.2.2]
      unfold parse_i64_digits
      rw [if_neg (by simp)]
      rw [if_neg (by simp)]
      rw [hnfd]
      have hB : (2 : Int) ^ 63 - 1 = 9223372036854775807 := by norm_num
      have hA : (2 : Nat) ^ 53 - 1 = 9007199254740991 := by norm_num
      rw [if_neg (by omega)]
    have hdrop : (ds ++ ['K', 'i']).drop ds.length = ['K', 'i'] :=
      List.drop_left ds ['K', 'i']
    have hsm : suffix_multiplier (['K', 'i'].asString) = some (1024, 1) := rfl
    have hsat : i64_saturate ((n : Int) * ((1024 : Nat) : Int))
        = (n : Int) * ((1024 : Nat) : Int) := by
      have hc : ((1024 : Nat) : Int) = 1024 := by norm_num
      rw [hc]
      unfold i64_saturate
      have hB : (2 : Int) ^ 63 = 9223372036854775808 := by norm_num
      have hA : (2 : Nat) ^ 53 - 1 = 9007199254740991 := by norm_num
      rw [if_neg (by omega), if_neg (by omega)]
    simp only [htw, hdrop, hnum, hsm, ceilDiv_one, hsat]
    norm_num

/-- C5 (witness): the amended theorem applied at `n = 3`:
`"3Ki"` parses to `3 × 1024`. -/
theorem parse_quantity_Ki_amended_witness :
    parse_quantity ((digitChars 3 ++ "Ki".data).asString)
      = .ok ((3 : Int) * 1024) := by
  exact parse_quantity_Ki_amended 3 (by norm_num)

/-- C6: `workspace_status` returns, when both the service and the pod
named `workspace-{username}` are found, the classified phase, the pod,
the service, and — exactly when `spec.nodeName` is set — the pod's node;
when the pod (resp. the service) is absent it returns phase `NotFound`
with no pod and no node, the service field still carrying whatever the
service lookup produced. -/
theorem workspace_status_characterization (env : KubeEnv) (user : User) :
    (∀ s p, env.getService (user_service_name user) = some s →
        env.getPod (user_pod_name user) = some p →
        workspace_status env user =
          { phase := WorkspacePhase.from_pod p
            service := some s
            pod := some p
            node := (p.spec.bind (fun x => x.node_name)).map env.getNode })
    ∧ (env.getPod (user_pod_name user) = none →
        workspace_status env user =
          { phase := .notFound
            service := env.getService (user_service_name user)
            pod := none
            node := none })
    ∧ (env.getService (user_service_name user) = none →
        workspace_status env user =
          { phase := .notFound, service := none, pod := none,
            node := none }) := by
  refine ⟨?_, ?_, ?_⟩
  · intro s p hs hp
    unfold workspace_status
    rw [hs, hp]
  · intro hp
    unfold workspace_status
    rw [hp]
    rcases env.getService (user_service_name user) with _ | s <;> rfl
  · intro hs
    unfold workspace_status
    rw [hs]

/-- C6 (witness): the theorem applied to a concrete cluster view in
which both lookups hit (`podFutureSince` has no `spec`, so no node is
fetched and the phase classifies as `Unknown`). -/
theorem workspace_status_characterization_witness :
    workspace_status envAliceFull
      { username := "alice", ssh_public_key := "k1" } =
      { phase := .unknown, service := some { name := "svc" },
        pod := some podFutureSince, node := none } := by
  exact (workspace_status_characterization envAliceFull
    { username := "alice", ssh_public_key := "k1" }).1
    { name := "svc" } podFutureSince rfl rfl

/-- C8 (counterexample): when the namespace re-ensure step of a tick
fails, that same tick does *not* go on to the pod inventory: the tick's
trace is just the failed namespace step, and the tick returns an error
(which `run_loop` then logs). -/
theorem run_checks_ns_failure_cex :
    (run_checks false true true true).1 = [TickStep.ensureNamespace]
    ∧ TickStep.checkPods ∉ (run_checks false true true true).1
    ∧ (run_checks false true true true).2 = false := by
  refine ⟨rfl, ?_, rfl⟩
  decide

/-- C8 (amended): a namespace re-ensure failure aborts the remainder of
that tick — its trace is exactly the namespace step, so the pod
inventory does not run in that tick; the surrounding loop keeps ticking
regardless (every one of the `n` scheduled ticks produces a trace, and
each trace starts with the namespace step). -/
theorem run_checks_ns_failure_aborts :
    (∀ podsOk promEnabled smOk,
      (run_checks false podsOk promEnabled smOk).1 =
        [TickStep.ensureNamespace])
    ∧ (∀ oracle n, (run_loop_ticks oracle n).length = n)
    ∧ (∀ nsOk podsOk promEnabled smOk,
        (run_checks nsOk podsOk promEnabled smOk).1.head? =
          some TickStep.ensureNamespace) := by
  refine ⟨fun _ _ _ => rfl, fun oracle n => by simp [run_loop_ticks], ?_⟩
  intro nsOk podsOk promEnabled smOk
  cases nsOk <;> cases podsOk <;> cases promEnabled <;> cases smOk <;> rfl

/-- C1 (amended): on panic-free inputs (no configured dimension's set
since-timestamp lies in the future of `now`), `should_shutdown` returns
the boolean that is true iff at least one *evaluated* dimension — one
that is configured *and* has its since-timestamp set — strictly exceeds
its minimum idle time, and no evaluated dimension falls short.  A
configured dimension whose since-timestamp is unset is skipped rather
than vetoing; with no dimension evaluated the result is `false`. -/
theorem should_shutdown_characterization (a : PodMetricsAnnotion)
    (cfg : AutoShutdown) (now : Int)
    (hnet : ∀ s, a.network_idle_since = some s →
      cfg.tcp_idle.isSome = true → s ≤ now)
    (hcpu : ∀ s, a.cpu_idle_since = some s →
      cfg.cpu_usage.isSome = true → s ≤ now) :
    a.should_shutdown cfg now = some (codeShouldShutdown a cfg now) :=
  should_shutdown_eq_code_aux a cfg now hnet hcpu

/-- C1 (witness): the characterization applied to the counterexample
input, where it evaluates to `true` (the cpu dimension is evaluated and
exceeded, the configured-but-unset tcp dimension is skipped). -/
theorem should_shutdown_characterization_witness :
    PodMetricsAnnotion.should_shutdown annotCpuZero cfgBoth10 100
      = some (codeShouldShutdown annotCpuZero cfgBoth10 100)
    ∧ codeShouldShutdown annotCpuZero cfgBoth10 100 = true := by
  refine ⟨should_shutdown_characterization annotCpuZero cfgBoth10 100
    ?_ ?_, rfl⟩
  · intro s hsx ht
    simp [annotCpuZero] at hsx
  · intro s hsx ht
    simp [annotCpuZero] at hsx
    omega

/-- C7: `should_shutdown` is monotone in each `*_idle_since` field: for
annotations differing only in one dimension's set since-timestamp moved
further into the past, a `true` verdict can never turn `false` (nor turn
into the panic branch). -/
theorem should_shutdown_monotone (cfg : AutoShutdown) (now s s' : Int)
    (a a' : PodMetricsAnnotion) (hle : s' ≤ s)
    (hdiff : (a.network_idle_since = some s
        ∧ a' = { a with network_idle_since := some s' })
      ∨ (a.cpu_idle_since = some s
        ∧ a' = { a with cpu_idle_since := some s' }))
    (htrue : a.should_shutdown cfg now = some true) :
    a'.should_shutdown cfg now = some true := by
  obtain ⟨hnetv, hcpuv⟩ := should_shutdown_some_true_valid a cfg now htrue
  rcases hdiff with ⟨hs, ha'⟩ | ⟨hs, ha'⟩
  · subst ha'
    obtain ⟨en, cu, ti⟩ := cfg
    rcases ti with _ | tcp
    · have e1 : PodMetricsAnnotion.should_shutdown
          { a with network_idle_since := some s' } ⟨en, cu, none⟩ now
          = shutdownCpuStep { a with network_idle_since := some s' }
            ⟨en, cu, none⟩ now false := rfl
      have e2 : a.should_shutdown ⟨en, cu, none⟩ now
          = shutdownCpuStep a ⟨en, cu, none⟩ now false := rfl
      rw [e1, shutdownCpuStep_congr _ now false
        (show ({ a with network_idle_since := some s' } :
          PodMetricsAnnotion).cpu_idle_since = a.cpu_idle_since from rfl)]
      rw [e2] at htrue
      exact htrue
    · have hsn : s ≤ now := hnetv s hs rfl
      have hs'n : s' ≤ now := by omega
      simp only [PodMetricsAnnotion.should_shutdown, hs,
        durationToStd_of_le hsn] at htrue
      simp only [PodMetricsAnnotion.should_shutdown,
        durationToStd_of_le hs'n]
      by_cases hgt : (now - s).toNat > tcp.minimum_idle_time
      · rw [if_pos hgt] at htrue
        rw [if_pos (show (now - s').toNat > tcp.minimum_idle_time by omega)]
        rw [shutdownCpuStep_congr _ now true
          (show ({ a with network_idle_since := some s' } :
            PodMetricsAnnotion).cpu_idle_since = a.cpu_idle_since from rfl)]
        exact htrue
      · rw [if_neg hgt] at htrue
        exact absurd htrue (by simp)
  · subst ha'
    obtain ⟨en, cu, ti⟩ := cfg
    rcases ti with _ | tcp <;> rcases hn : a.network_idle_since with _ | ns <;>
      simp only [PodMetricsAnnotion.should_shutdown, hn] at htrue ⊢
    · exact shutdownCpuStep_mono hs hle htrue
    · exact shutdownCpuStep_mono hs hle htrue
    · exact shutdownCpuStep_mono hs hle htrue
    · rcases hd : durationToStd (now - ns) with _ | d
      · rw [hd] at htrue
        exact absurd htrue (by simp)
      · simp only [hd] at htrue ⊢
        by_cases hgt : d > tcp.minimum_idle_time
        · rw [if_pos hgt] at htrue ⊢
          exact shutdownCpuStep_mono hs hle htrue
        · rw [if_neg hgt] at htrue
          exact absurd htrue (by simp)

/-- C7 (witness): the theorem applied with the tcp since-timestamp moved
from 50 back to 0 under a sweep at time 100 and a 10-second minimum. -/
theorem should_shutdown_monotone_witness :
    PodMetricsAnnotion.should_shutdown ⟨none, none, some 0⟩ cfgTcp10 100
      = some true := by
  exact should_shutdown_monotone cfgTcp10 100 50 0
    ⟨none, none, some 50⟩ ⟨none, none, some 0⟩ (by omega)
    (Or.inl ⟨rfl, rfl⟩) (by rfl)

/-- C2: when the stored `last_idle_check` exists and `now` minus it
exceeds 5 minutes (300 s in the embedding), the analysis behaves exactly
as if both `cpu_idle_since` and `network_idle_since` of the old
annotation were unset: the result is unchanged by erasing them, and any
produced annotation carries idle-since values that are either `none` or
the fresh `now` — never a carried-over old timestamp. -/
theorem analyze_stale_invalidates (a : PodMetricsAnnotion)
    (cfg : AutoShutdown) (metrics_opt : Option PodMetrics)
    (ss_stdout : Option String) (now last : Int)
    (hlast : a.last_idle_check = some last)
    (hgap : now - last > 60 * 5) :
    analyze_core a cfg metrics_opt ss_stdout now
      = analyze_core
          { a with cpu_idle_since := none, network_idle_since := none }
          cfg metrics_opt ss_stdout now
    ∧ ∀ r, analyze_core a cfg metrics_opt ss_stdout now = some r →
        (r.cpu_idle_since = none ∨ r.cpu_idle_since = some now)
        ∧ (r.network_idle_since = none ∨ r.network_idle_since = some now) := by
  have h1 : durationToStd (now - last) = some (now - last).toNat :=
    durationToStd_of_le (by omega)
  have h2 : (now - last).toNat > 60 * 5 := by omega
  constructor
  · simp only [analyze_core, hlast, h1, h2, if_true, ite_true]
  · intro r hr
    simp only [analyze_core, hlast, h1, h2, if_true, ite_true] at hr
    exact analyze_new_annot_of_erased cfg metrics_opt ss_stdout now
      { a with cpu_idle_since := none, network_idle_since := none }
      rfl rfl r hr

/-- C2 (witness): the theorem applied at a concrete stale annotation
(last check at time 0, sweep at time 1000). -/
theorem analyze_stale_invalidates_witness :
    analyze_core
      { last_idle_check := some 0, cpu_idle_since := some 5,
        network_idle_since := some 7 }
      cfgTcp10 none (some "") 1000
    = analyze_core
      { last_idle_check := some 0, cpu_idle_since := none,
        network_idle_since := none }
      cfgTcp10 none (some "") 1000 := by
  exact (analyze_stale_invalidates
    { last_idle_check := some 0, cpu_idle_since := some 5,
      network_idle_since := some 7 }
    cfgTcp10 none (some "") 1000 0 rfl (by decide)).1

/-- C9: `should_shutdown` is partial: on an annotation whose configured
dimension has a since-timestamp in the future of the evaluation clock,
the `to_std().unwrap()` conversion panics (`none`) instead of producing
a boolean — and such an annotation is exactly what the sweep builds from
annotation data read back from the pod: here the pod carries a parsed
pod-data annotation with `network_idle_since = 1000`, the sweep at time
110 keeps it (gap below 5 min, zero TCP connections), and the decision
on the resulting annotation at time 110 panics. -/
theorem should_shutdown_panic_reachable :
    analyze_pod_autoshutdown podFutureSince cfgTcp10 none (some "") 110
      = some annotFutureNet
    ∧ PodMetricsAnnotion.should_shutdown annotFutureNet cfgTcp10 110
      = none := by
  exact ⟨rfl, rfl⟩

/-- C10: an authenticated `PodStop` for a user whose pod does not exist
issues no delete call at all (in particular an orphaned service
survives, as does every other object), and still answers the success
output `PodStop {}`. -/
theorem pod_stop_no_pod_frame (ns : String) (users : List User)
    (username ssh_key : String) (podDeleteOk serviceDeleteOk : Bool)
    (user : User)
    (hauth : verify_user users username ssh_key = .ok user) :
    run_query_pod_stop ns users username ssh_key false
        podDeleteOk serviceDeleteOk = ([], .ok .podStop)
    ∧ ∀ st : Cluster,
        applyActions st
          (run_query_pod_stop ns users username ssh_key false
            podDeleteOk serviceDeleteOk).1 = st := by
  unfold run_query_pod_stop
  rw [hauth]
  exact ⟨rfl, fun st => rfl⟩

/-- C10 (witness): the theorem applied to a concrete whitelist and user. -/
theorem pod_stop_no_pod_frame_witness :
    run_query_pod_stop "ws" usersAlice "alice" "k1" false true true
      = ([], .ok .podStop) := by
  exact (pod_stop_no_pod_frame "ws" usersAlice "alice" "k1" true true
    { username := "alice", ssh_public_key := "k1" } (by rfl)).1

end KubeWorkspace
